import Mathlib

/-!
# spotify-slack: the `spotify` package

A shallow embedding of `src/spotify/spotify.go` and the properties of its
vote aggregation (`Skip`, `DontSkip`, `TimerExpired`), of its paginated
membership check (`isTrackInPlaylist`, `isTrackInPage`) and of
`AddToPlaylist`.

The remote service (package `github.com/zmb3/spotify`), the OAuth token
endpoint, `url.QueryEscape` and the Go runtime's timers are not part of the
repository.  They are a parameter of the development: a record of
functions over an arbitrary state `W` of the outside world.  Every call the
package makes to them is appended to a log, so that "is called exactly
once" and "is never called" are statements about that log.

Two points of Go decide several properties.  The vote counters are `int`s
and wrap around.  And `isTrackInPlaylist` hands `s.Playlist.Tracks`, a
struct, to `NextPage` by value: whatever `NextPage` fetches goes into a
copy, and the page held by the client never changes.
-/

namespace Spotify

/-! ## Types of the client library used by the package -/

/-- Go type `spotify.ID`, a string. -/
abbrev ID := String

/-- Go `error` values that the package tells apart: the library's sentinel
`spotify.ErrNoMorePages` (compared with `==`), and every other error, which
carries its message (`fmt.Errorf` in the package, any failure of a
collaborator). -/
inductive Error where
  | ErrNoMorePages
  | errorf (msg : String)
  deriving DecidableEq, Repr

/-- Go type `spotify.FullTrack`; the package reads its `ID` only. -/
structure FullTrack where
  ID : ID
  deriving DecidableEq, Repr

/-- Go type `spotify.PlaylistTrack`; the package reads `Track.ID` only. -/
structure PlaylistTrack where
  Track : FullTrack
  deriving DecidableEq, Repr

/-- Go type `spotify.PlaylistTrackPage`, a struct: the entries of one page,
and the library's cursor `Next` to the page after it (never read by the
package). -/
structure PlaylistTrackPage where
  Next : String
  Tracks : List PlaylistTrack
  deriving DecidableEq, Repr

/-- Go type `spotify.FullTrackPage`, the track part of a search result. -/
structure FullTrackPage where
  Tracks : List FullTrack
  deriving DecidableEq, Repr

/-- Go type `spotify.SearchResult`; `Tracks` is a pointer and may be nil. -/
structure SearchResult where
  Tracks : Option FullTrackPage
  deriving DecidableEq, Repr

/-- Go type `spotify.FullPlaylist`: its `ID` and its first page `Tracks`,
held by value inside the playlist. -/
structure FullPlaylist where
  ID : ID
  Tracks : PlaylistTrackPage
  deriving DecidableEq, Repr

/-- Go type `spotify.SearchType`. -/
inductive SearchType where
  | SearchTypeAlbum
  | SearchTypeArtist
  | SearchTypePlaylist
  | SearchTypeTrack
  deriving DecidableEq, Repr

/-- Go type `time.Duration`, in nanoseconds. -/
abbrev Duration := Nat

/-- Go constant `time.Second`. -/
def Second : Duration := 1000000000

/-- Go type `time.Timer`, as far as the package is concerned: the duration
it was created with. -/
structure Timer where
  d : Duration
  deriving DecidableEq, Repr

/-! ## The package's own types -/

/-- Go struct `SpotifyClientOpts`. -/
structure SpotifyClientOpts where
  ClientID : String
  Secret : String
  PlaylistName : String
  PlaylistID : String
  deriving DecidableEq, Repr

/-- Go struct `SpotifyClient`.  The handle `spotify` is the parameter `api`
of the operations below.  `Playlist` is a pointer in Go; `NewSpotifyClient`
always sets it, and it is held here as the playlist it points to.  The
counters are Go `int`s: integers that the operations keep within 64 bits by
`wrapInt`. -/
structure SpotifyClient where
  Playlist : FullPlaylist
  skipVoted : Bool
  skipVotes : Int
  keepVotes : Int
  skipTimer : Option Timer
  deriving DecidableEq, Repr

/-- Go `int` arithmetic on a 64-bit target: the result of an operation is
reduced to the range from `-2^63` to `2^63 - 1`, two's complement.  (Where
`int` has 32 bits the same holds with 31 and 32 for 63 and 64.) -/
def wrapInt (x : Int) : Int := (x + 2 ^ 63) % 2 ^ 64 - 2 ^ 63

/-! ## The outside world -/

/-- One call made by the package to something outside it. -/
inductive Call where
  | Token (clientID secret : String)
  | CurrentUser
  | CreatePlaylistForUser (userID playlistName description : String) (pub : Bool)
  | GetPlaylist (playlistID : ID)
  | Search (query : String) (t : SearchType)
  | AddTracksToPlaylist (playlistID : ID) (trackIDs : List ID)
  | NextPage (page : PlaylistTrackPage)
  | Next
  | NewTimer (d : Duration)
  deriving DecidableEq, Repr

/-- What a call of the library's `NextPage` does with the page it is given.
It returns nil after it `fetched` the page that follows and wrote it into
the page it was given; or it `failed` and returns an error; or it
`panicked` and does not return (the library looks at its argument as a
pointer to a page). -/
inductive PageAnswer where
  | fetched (page : PlaylistTrackPage)
  | failed (err : Error)
  | panicked
  deriving DecidableEq, Repr

/-- How a call of the package ends: it returns a value, or the run panics
inside it. -/
inductive Outcome (α : Type) where
  | returned (a : α)
  | panicked
  deriving DecidableEq, Repr

/-- The collaborators, over a state `W` of the outside world.  Each
operation may change the world and answers with a value or an error.
`NextPage` receives a page and answers as `PageAnswer` describes. -/
structure Client (W : Type) where
  Token : W → String → String → W × Except Error Unit
  CurrentUser : W → W × Except Error String
  CreatePlaylistForUser : W → String → String → String → Bool → W × Except Error FullPlaylist
  GetPlaylist : W → ID → W × Except Error FullPlaylist
  QueryEscape : String → String
  Search : W → String → SearchType → W × Except Error SearchResult
  AddTracksToPlaylist : W → ID → List ID → W × Except Error String
  NextPage : W → PlaylistTrackPage → W × PageAnswer
  Next : W → W × Option Error

/-- A running program: the client, the outside world, and the calls made
so far. -/
structure System (W : Type) where
  client : SpotifyClient
  world : W
  calls : List Call
  deriving DecidableEq

variable {W : Type}

/-! ## The operations of the package -/

/-- Go `NewSpotifyClient`: obtains a token, asks for the current user, then
creates a playlist (no `PlaylistID` given) or fetches the one named.  The
first failure is returned; on success the client holds the playlist and the
zero value in every other field. -/
def NewSpotifyClient (api : Client W) (opts : SpotifyClientOpts) (w : W) :
    (W × List Call) × Except Error SpotifyClient :=
  match api.Token w opts.ClientID opts.Secret with
  | (w1, .error err) => ((w1, [Call.Token opts.ClientID opts.Secret]), .error err)
  | (w1, .ok _) =>
    match api.CurrentUser w1 with
    | (w2, .error err) =>
      ((w2, [Call.Token opts.ClientID opts.Secret, Call.CurrentUser]), .error err)
    | (w2, .ok userID) =>
      if opts.PlaylistID = "" then
        match api.CreatePlaylistForUser w2 userID opts.PlaylistName "echo office playlist" false with
        | (w3, .error err) =>
          ((w3, [Call.Token opts.ClientID opts.Secret, Call.CurrentUser,
            Call.CreatePlaylistForUser userID opts.PlaylistName "echo office playlist" false]),
            .error err)
        | (w3, .ok playlist) =>
          ((w3, [Call.Token opts.ClientID opts.Secret, Call.CurrentUser,
            Call.CreatePlaylistForUser userID opts.PlaylistName "echo office playlist" false]),
            .ok { Playlist := playlist, skipVoted := false, skipVotes := 0, keepVotes := 0,
                  skipTimer := none })
      else
        match api.GetPlaylist w2 opts.PlaylistID with
        | (w3, .error err) =>
          ((w3, [Call.Token opts.ClientID opts.Secret, Call.CurrentUser,
            Call.GetPlaylist opts.PlaylistID]), .error err)
        | (w3, .ok playlist) =>
          ((w3, [Call.Token opts.ClientID opts.Secret, Call.CurrentUser,
            Call.GetPlaylist opts.PlaylistID]),
            .ok { Playlist := playlist, skipVoted := false, skipVotes := 0, keepVotes := 0,
                  skipTimer := none })

/-- The loop of Go `isTrackInPage` over the entries of a page. -/
def isTrackInPage.loop (trackID : ID) : List PlaylistTrack → Bool
  | [] => false
  | t :: ts => if t.Track.ID = trackID then true else isTrackInPage.loop trackID ts

/-- Go `isTrackInPage`: is some entry of the page the track? -/
def isTrackInPage (trackID : ID) (page : PlaylistTrackPage) : Bool :=
  isTrackInPage.loop trackID page.Tracks

/-- The system after a `NextPage` call on the page held by the client left
the world `w`.  The page was passed by value: the client is as it was. -/
def paged (s : System W) (w : W) : System W :=
  { s with world := w, calls := s.calls ++ [Call.NextPage s.client.Playlist.Tracks] }

/-- Go `(*SpotifyClient).isTrackInPlaylist`.  The Go loop `for true` has no
bound; here each round of the loop uses one unit of `fuel`, and `none` is
"still running when the fuel ran out".  Each round scans the field
`s.Playlist.Tracks`, returns `true` on a match, and otherwise calls
`NextPage` with `s.Playlist.Tracks` as argument.  That argument is a struct
passed by value and nothing in the loop assigns `s.Playlist.Tracks`: a page
that `NextPage` fetched is in the copy and is lost, and the next round
scans the same page again.  An error of either kind returns `false`. -/
def isTrackInPlaylist (api : Client W) (trackID : ID) :
    Nat → System W → Option (Outcome Bool × System W)
  | 0, _ => none
  | fuel + 1, s =>
    let inPage := isTrackInPage trackID s.client.Playlist.Tracks
    if inPage then
      some (Outcome.returned true, s)
    else
      match api.NextPage s.world s.client.Playlist.Tracks with
      | (w, PageAnswer.panicked) => some (Outcome.panicked, paged s w)
      | (w, PageAnswer.failed err) =>
        if err = Error.ErrNoMorePages then
          some (Outcome.returned false, paged s w)
        else
          some (Outcome.returned false, paged s w)
      | (w, PageAnswer.fetched _) => isTrackInPlaylist api trackID fuel (paged s w)

/-- The system after the `Search` call of `AddToPlaylist` left the world
`w1`. -/
def searched (s : System W) (w1 : W) (query : String) : System W :=
  { s with world := w1, calls := s.calls ++ [Call.Search query SearchType.SearchTypeTrack] }

/-- The system after the `AddTracksToPlaylist` call of `AddToPlaylist` left
the world `w3`.  The call passes the playlist ID and no track ID. -/
def added (s : System W) (w3 : W) : System W :=
  { s with world := w3, calls := s.calls ++ [Call.AddTracksToPlaylist s.client.Playlist.ID []] }

/-- Go `(*SpotifyClient).AddToPlaylist`.  `fuel` bounds the membership
check; `none` is "still running".  The result is how the call ended, with
the returned `error` (`none` for nil), and the system afterwards. -/
def AddToPlaylist (api : Client W) (fuel : Nat) (title artist : String) (s : System W) :
    Option (Outcome (Option Error) × System W) :=
  let searchQuery := title ++ " - " ++ artist
  let query := api.QueryEscape searchQuery
  match api.Search s.world query SearchType.SearchTypeTrack with
  | (w1, .error err) => some (Outcome.returned (some err), searched s w1 query)
  | (w1, .ok results) =>
    let s1 : System W := searched s w1 query
    match results.Tracks with
    | some tracks =>
      if h : tracks.Tracks.length = 1 then
        let trackID := (tracks.Tracks.get ⟨0, by omega⟩).ID
        match isTrackInPlaylist api trackID fuel s1 with
        | none => none
        | some (Outcome.panicked, s2) => some (Outcome.panicked, s2)
        | some (Outcome.returned true, s2) =>
          some (Outcome.returned (some (Error.errorf "Track already in playlist")), s2)
        | some (Outcome.returned false, s2) =>
          match api.AddTracksToPlaylist s2.world s2.client.Playlist.ID [] with
          | (w3, .error err) => some (Outcome.returned (some err), added s2 w3)
          | (w3, .ok _) => some (Outcome.returned none, added s2 w3)
      else
        some (Outcome.returned none, s1)
    | none => some (Outcome.returned none, s1)

/-- Go `(*SpotifyClient).Skip`: the first skip vote creates the ten second
timer and sets `skipVoted`; every call adds one to `skipVotes`, in `int`
arithmetic. -/
def Skip (s : System W) : System W :=
  let s1 : System W :=
    if !s.client.skipVoted then
      { s with client := { s.client with skipTimer := some ⟨Second * 10⟩, skipVoted := true },
               calls := s.calls ++ [Call.NewTimer (Second * 10)] }
    else s
  { s1 with client := { s1.client with skipVotes := wrapInt (s1.client.skipVotes + 1) } }

/-- Go `(*SpotifyClient).DontSkip`: adds one to `keepVotes`, in `int`
arithmetic. -/
def DontSkip (s : System W) : System W :=
  { s with client := { s.client with keepVotes := wrapInt (s.client.keepVotes + 1) } }

/-- Go `(*SpotifyClient).TimerExpired`: with more skip votes than keep votes
it calls `Next` and returns what `Next` returned; otherwise it returns the
error "Not enough skip votes!". -/
def TimerExpired (api : Client W) (s : System W) : Option Error × System W :=
  if s.client.skipVotes > s.client.keepVotes then
    match api.Next s.world with
    | (w, err) => (err, { s with world := w, calls := s.calls ++ [Call.Next] })
  else
    (some (Error.errorf "Not enough skip votes!"), s)

/-! ## Go's `url.QueryEscape` -/

/-- Go `url.QueryEscape` keeps letters, digits and `-`, `_`, `.`, `~`. -/
def shouldEscape (c : Char) : Bool :=
  !(c.isAlphanum || c = '-' || c = '_' || c = '.' || c = '~')

/-- One upper-case hexadecimal digit. -/
def hexDigit (n : Nat) : Char := "0123456789ABCDEF".toList.getD n '0'

/-- The escape `%XX` of one byte. -/
def escapeByte (b : UInt8) : List Char :=
  ['%', hexDigit (b.toNat / 16), hexDigit (b.toNat % 16)]

/-- Go `url.QueryEscape`: a space becomes `+`, a character that is kept
stays, and every other character becomes the escapes of its UTF-8 bytes. -/
def QueryEscape (s : String) : String :=
  String.mk (s.toList.flatMap fun c =>
    if c = ' ' then ['+']
    else if shouldEscape c then (String.utf8EncodeChar c).flatMap escapeByte
    else [c])

/-! ## Vocabulary of the properties -/

/-- One vote: a call of `Skip` or a call of `DontSkip`. -/
inductive Vote where
  | Skip
  | DontSkip
  deriving DecidableEq, Repr

/-- The call a vote stands for. -/
def castVote (s : System W) : Vote → System W
  | Vote.Skip => Skip s
  | Vote.DontSkip => DontSkip s

/-- A sequence of `Skip` and `DontSkip` calls, made in order. -/
def castVotes : System W → List Vote → System W
  | s, [] => s
  | s, v :: vs => castVotes (castVote s v) vs

/-- A system whose client is as `NewSpotifyClient` builds it: the playlist,
no vote cast, no timer. -/
def fresh (playlist : FullPlaylist) (w : W) (log : List Call) : System W :=
  { client := { Playlist := playlist, skipVoted := false, skipVotes := 0, keepVotes := 0,
                skipTimer := none },
    world := w, calls := log }

/-- The calls made between two states of the system. -/
def newCalls (before after : System W) : List Call :=
  after.calls.drop before.calls.length

/-- Is the call the creation of a timer? -/
def Call.isNewTimer : Call → Bool
  | Call.NewTimer _ => true
  | _ => false

/-- Is the call a `NextPage` request? -/
def Call.isNextPage : Call → Bool
  | Call.NextPage _ => true
  | _ => false

/-- Is the call an `AddTracksToPlaylist` request? -/
def Call.isAddTracks : Call → Bool
  | Call.AddTracksToPlaylist _ _ => true
  | _ => false

/-- The world after `n` calls of `NextPage` in a row on the same page `p`,
each of which fetched a page; `none` when one of them failed or
panicked.  These are the calls `isTrackInPlaylist` makes while it has not
found the track. -/
def asked (api : Client W) (p : PlaylistTrackPage) : Nat → W → Option W
  | 0, w => some w
  | n + 1, w =>
    match api.NextPage w p with
    | (w1, PageAnswer.fetched _) => asked api p n w1
    | _ => none

/-- A sequence of votes followed by one call of `TimerExpired`. -/
def resolve (api : Client W) (s : System W) (vs : List Vote) : Option Error × System W :=
  TimerExpired api (castVotes s vs)

/-- A remote service for the examples.  Its world counts the `NextPage`
requests served; the request made in world `w` for page `p` is answered by
`script w p`.  `Search` answers `found`, `Next` answers `skipped`, and the
query is escaped as Go does. -/
def remote (script : Nat → PlaylistTrackPage → PageAnswer) (found : Except Error SearchResult)
    (skipped : Option Error) : Client Nat :=
  { Token := fun w _ _ => (w, .ok ())
    CurrentUser := fun w => (w, .ok "user")
    CreatePlaylistForUser := fun w _ _ _ _ => (w, .ok ⟨"created", ⟨"", []⟩⟩)
    GetPlaylist := fun w playlistID => (w, .ok ⟨playlistID, ⟨"", []⟩⟩)
    QueryEscape := QueryEscape
    Search := fun w _ _ => (w, found)
    AddTracksToPlaylist := fun w _ _ => (w, .ok "snapshot")
    NextPage := fun w p => (w + 1, script w p)
    Next := fun w => (w, skipped) }

/-- A playlist of one page: every `NextPage` request reports "no more
pages". -/
def onePage : Nat → PlaylistTrackPage → PageAnswer :=
  fun _ _ => PageAnswer.failed Error.ErrNoMorePages

/-- A playlist of two pages: the first `NextPage` request fetches `second`,
every later one reports "no more pages". -/
def twoPages (second : PlaylistTrackPage) : Nat → PlaylistTrackPage → PageAnswer :=
  fun w _ => if w = 0 then PageAnswer.fetched second else PageAnswer.failed Error.ErrNoMorePages

/-- A service whose `NextPage` panics on a page passed by value. -/
def panics : Nat → PlaylistTrackPage → PageAnswer :=
  fun _ _ => PageAnswer.panicked

/-- A playlist whose pages do not change: the answer depends on the cursor
of the page alone, "no more pages" without a cursor and `second`
otherwise. -/
def byCursor (second : PlaylistTrackPage) : Nat → PlaylistTrackPage → PageAnswer :=
  fun _ p => if p.Next = "" then PageAnswer.failed Error.ErrNoMorePages
    else PageAnswer.fetched second

/-! ## Construction -/

/-- A client returned by `NewSpotifyClient` is a fresh one: it holds the
playlist the service answered with, no vote and no timer. -/
theorem NewSpotifyClient_fresh (api : Client W) (opts : SpotifyClientOpts) (w : W)
    (out : W × List Call) (c : SpotifyClient)
    (h : NewSpotifyClient api opts w = (out, .ok c)) :
    ∃ playlist, c = (fresh playlist out.1 out.2).client := by
  unfold NewSpotifyClient at h
  split at h
  · simp at h
  · split at h
    · simp at h
    · split at h
      · split at h
        · simp at h
        · simp only [Prod.mk.injEq, Except.ok.injEq] at h
          exact ⟨_, h.2.symm⟩
      · split at h
        · simp at h
        · simp only [Prod.mk.injEq, Except.ok.injEq] at h
          exact ⟨_, h.2.symm⟩

/-! ## Votes -/

theorem wrapInt_range (x : Int) : -2 ^ 63 ≤ wrapInt x ∧ wrapInt x < 2 ^ 63 := by
  unfold wrapInt; omega

theorem wrapInt_of_range (x : Int) (h : -2 ^ 63 ≤ x ∧ x < 2 ^ 63) : wrapInt x = x := by
  unfold wrapInt; omega

theorem wrapInt_add (a b : Int) : wrapInt (wrapInt a + b) = wrapInt (a + b) := by
  unfold wrapInt; omega

theorem castVotes_skipVotes (s : System W) (vs : List Vote)
    (h : -2 ^ 63 ≤ s.client.skipVotes ∧ s.client.skipVotes < 2 ^ 63) :
    (castVotes s vs).client.skipVotes =
      wrapInt (s.client.skipVotes + (vs.count Vote.Skip : Nat)) := by
  induction vs generalizing s with
  | nil => simp [castVotes, wrapInt_of_range _ h]
  | cons v vs ih =>
    cases v
    · have hs : (castVote s Vote.Skip).client.skipVotes = wrapInt (s.client.skipVotes + 1) := by
        simp only [castVote, Skip]; split <;> rfl
      rw [castVotes, ih _ (by rw [hs]; exact wrapInt_range _), hs, wrapInt_add,
        List.count_cons_self]
      congr 1
      push_cast; ring
    · rw [castVotes, ih _ (by simpa [castVote, DontSkip] using h)]
      simp [castVote, DontSkip]

theorem castVotes_keepVotes (s : System W) (vs : List Vote)
    (h : -2 ^ 63 ≤ s.client.keepVotes ∧ s.client.keepVotes < 2 ^ 63) :
    (castVotes s vs).client.keepVotes =
      wrapInt (s.client.keepVotes + (vs.count Vote.DontSkip : Nat)) := by
  induction vs generalizing s with
  | nil => simp [castVotes, wrapInt_of_range _ h]
  | cons v vs ih =>
    cases v
    · have hs : (castVote s Vote.Skip).client.keepVotes = s.client.keepVotes := by
        simp only [castVote, Skip]; split <;> rfl
      rw [castVotes, ih _ (by rw [hs]; exact h), hs]
      simp
    · have hs : (castVote s Vote.DontSkip).client.keepVotes =
          wrapInt (s.client.keepVotes + 1) := rfl
      rw [castVotes, ih _ (by rw [hs]; exact wrapInt_range _), hs, wrapInt_add,
        List.count_cons_self]
      congr 1
      push_cast; ring

theorem castVote_client (s t : System W) (v : Vote) (h : s.client = t.client) :
    (castVote s v).client = (castVote t v).client := by
  obtain ⟨sc, sw, sl⟩ := s
  obtain ⟨tc, tw, tl⟩ := t
  simp only at h
  subst h
  cases v
  · simp only [castVote, Skip]
    split <;> rfl
  · rfl

theorem castVotes_client (s t : System W) (vs : List Vote) (h : s.client = t.client) :
    (castVotes s vs).client = (castVotes t vs).client := by
  induction vs generalizing s t with
  | nil => exact h
  | cons v vs ih => exact ih _ _ (castVote_client s t v h)

theorem castVotes_calls_voted (s : System W) (vs : List Vote) (h : s.client.skipVoted = true) :
    (castVotes s vs).calls = s.calls := by
  induction vs generalizing s with
  | nil => rfl
  | cons v vs ih =>
    cases v
    · rw [castVotes, ih]
      · simp [castVote, Skip, h]
      · simp [castVote, Skip, h]
    · rw [castVotes, ih]
      · rfl
      · simpa [castVote, DontSkip] using h

theorem castVotes_calls (s : System W) (vs : List Vote) (h : s.client.skipVoted = false) :
    (castVotes s vs).calls =
      s.calls ++ (if Vote.Skip ∈ vs then [Call.NewTimer (Second * 10)] else []) := by
  induction vs generalizing s with
  | nil => simp [castVotes]
  | cons v vs ih =>
    cases v
    · rw [castVotes, castVotes_calls_voted]
      · simp [castVote, Skip, h]
      · simp [castVote, Skip, h]
    · rw [castVotes, ih]
      · simp [castVote, DontSkip]
      · simpa [castVote, DontSkip] using h

theorem Skip_calls_voted (s : System W) (h : s.client.skipVoted = true) :
    (Skip s).calls = s.calls := by
  simp [Skip, h]

theorem TimerExpired_calls (api : Client W) (s : System W) :
    (TimerExpired api s).2.calls =
      s.calls ++ (if s.client.keepVotes < s.client.skipVotes then [Call.Next] else []) := by
  unfold TimerExpired
  by_cases h : s.client.keepVotes < s.client.skipVotes
  · simp [h]
  · simp [h]

theorem TimerExpired_client (api : Client W) (s : System W) :
    (TimerExpired api s).2.client = s.client := by
  unfold TimerExpired
  split <;> rfl

theorem resolve_newCalls (api : Client W) (playlist : FullPlaylist) (w : W) (log : List Call)
    (vs : List Vote) :
    newCalls (fresh playlist w log) (resolve api (fresh playlist w log) vs).2 =
      (if Vote.Skip ∈ vs then [Call.NewTimer (Second * 10)] else []) ++
      (if wrapInt (vs.count Vote.DontSkip : Nat) < wrapInt (vs.count Vote.Skip : Nat)
        then [Call.Next] else []) := by
  have h0 : (-2 ^ 63 : Int) ≤ 0 ∧ (0 : Int) < 2 ^ 63 := by omega
  unfold newCalls resolve
  rw [TimerExpired_calls, castVotes_calls _ _ rfl, castVotes_skipVotes _ _ h0,
    castVotes_keepVotes _ _ h0]
  simp [fresh]

theorem mem_newTimer_append_iff (b c : Prop) [Decidable b] [Decidable c] :
    Call.Next ∈ (if b then [Call.NewTimer (Second * 10)] else []) ++
      (if c then [Call.Next] else []) ↔ c := by
  by_cases hb : b <;> by_cases hc : c <;> simp [hb, hc]

/-- C1 fails as stated: 2^63 calls of `Skip` and none of `DontSkip` are
more skip votes than keep votes, but the counter `skipVotes`, a Go `int`,
has wrapped around to `-2^63`, and `TimerExpired` does not call `Next`. -/
theorem skip_votes_wrap_around :
    (List.replicate (2 ^ 63) Vote.Skip).count Vote.DontSkip <
      (List.replicate (2 ^ 63) Vote.Skip).count Vote.Skip ∧
    Call.Next ∉ newCalls (fresh ⟨"pl", ⟨"", []⟩⟩ 0 [])
      (resolve (remote onePage (.ok ⟨none⟩) none) (fresh ⟨"pl", ⟨"", []⟩⟩ 0 [])
        (List.replicate (2 ^ 63) Vote.Skip)).2 := by
  have hskip : (List.replicate (2 ^ 63) Vote.Skip).count Vote.Skip = 2 ^ 63 :=
    List.count_replicate_self _ _
  have hkeep : (List.replicate (2 ^ 63) Vote.Skip).count Vote.DontSkip = 0 :=
    List.count_eq_zero.mpr (fun h => by cases (List.eq_of_mem_replicate h))
  constructor
  · rw [hskip, hkeep]; decide
  · rw [resolve_newCalls, mem_newTimer_append_iff, hskip, hkeep]
    decide

/-- C1, amended: after a sequence of `Skip` and `DontSkip` calls on a
freshly constructed client with fewer than 2^63 calls of each, so that
neither counter wraps around, one `TimerExpired` call invokes the
collaborator's `Next` exactly when there were strictly more `Skip` calls
than `DontSkip` calls. -/
theorem skip_fires_iff_strict_majority (api : Client W) (playlist : FullPlaylist) (w : W)
    (log : List Call) (vs : List Vote)
    (hskip : vs.count Vote.Skip < 2 ^ 63) (hkeep : vs.count Vote.DontSkip < 2 ^ 63) :
    Call.Next ∈ newCalls (fresh playlist w log) (resolve api (fresh playlist w log) vs).2 ↔
      vs.count Vote.DontSkip < vs.count Vote.Skip := by
  rw [resolve_newCalls, mem_newTimer_append_iff,
    wrapInt_of_range _ (by omega), wrapInt_of_range _ (by omega)]
  exact Int.ofNat_lt

/-- Witness of C1, amended: a tie of one vote each does not skip; Skip,
Skip, Keep skips; Skip, Keep, Keep does not; Skip alone skips. -/
theorem skip_fires_iff_strict_majority_witness :
    Call.Next ∉ newCalls (fresh ⟨"pl", ⟨"", []⟩⟩ 0 [])
      (resolve (remote onePage (.ok ⟨none⟩) none) (fresh ⟨"pl", ⟨"", []⟩⟩ 0 [])
        [Vote.Skip, Vote.DontSkip]).2 ∧
    Call.Next ∈ newCalls (fresh ⟨"pl", ⟨"", []⟩⟩ 0 [])
      (resolve (remote onePage (.ok ⟨none⟩) none) (fresh ⟨"pl", ⟨"", []⟩⟩ 0 [])
        [Vote.Skip, Vote.Skip, Vote.DontSkip]).2 ∧
    Call.Next ∉ newCalls (fresh ⟨"pl", ⟨"", []⟩⟩ 0 [])
      (resolve (remote onePage (.ok ⟨none⟩) none) (fresh ⟨"pl", ⟨"", []⟩⟩ 0 [])
        [Vote.Skip, Vote.DontSkip, Vote.DontSkip]).2 ∧
    Call.Next ∈ newCalls (fresh ⟨"pl", ⟨"", []⟩⟩ 0 [])
      (resolve (remote onePage (.ok ⟨none⟩) none) (fresh ⟨"pl", ⟨"", []⟩⟩ 0 [])
        [Vote.Skip]).2 :=
  ⟨fun h => absurd ((skip_fires_iff_strict_majority (remote onePage (.ok ⟨none⟩) none)
      ⟨"pl", ⟨"", []⟩⟩ 0 [] [Vote.Skip, Vote.DontSkip] (by decide) (by decide)).mp h)
      (by decide),
   (skip_fires_iff_strict_majority (remote onePage (.ok ⟨none⟩) none)
      ⟨"pl", ⟨"", []⟩⟩ 0 [] [Vote.Skip, Vote.Skip, Vote.DontSkip] (by decide) (by decide)).mpr
      (by decide),
   fun h => absurd ((skip_fires_iff_strict_majority (remote onePage (.ok ⟨none⟩) none)
      ⟨"pl", ⟨"", []⟩⟩ 0 [] [Vote.Skip, Vote.DontSkip, Vote.DontSkip] (by decide)
      (by decide)).mp h) (by decide),
   (skip_fires_iff_strict_majority (remote onePage (.ok ⟨none⟩) none)
      ⟨"pl", ⟨"", []⟩⟩ 0 [] [Vote.Skip] (by decide) (by decide)).mpr (by decide)⟩

/-- C6: a sequence of `Skip` and `DontSkip` calls on a freshly constructed
client, in any order, creates one timer if it contains a `Skip` and none
otherwise: the calls it makes are that one `time.NewTimer` of ten seconds
or nothing.  `DontSkip` makes no call in any state, and neither does a
`Skip` that follows a `Skip`. -/
theorem one_timer_per_vote_sequence (playlist : FullPlaylist) (w : W) (log : List Call)
    (vs : List Vote) :
    (newCalls (fresh playlist w log) (castVotes (fresh playlist w log) vs)).countP
        Call.isNewTimer = (if Vote.Skip ∈ vs then 1 else 0) ∧
    newCalls (fresh playlist w log) (castVotes (fresh playlist w log) vs) =
      (if Vote.Skip ∈ vs then [Call.NewTimer (Second * 10)] else []) ∧
    (∀ s : System W, (DontSkip s).calls = s.calls ∧
      (DontSkip s).client.skipTimer = s.client.skipTimer) ∧
    (∀ s : System W, (Skip (Skip s)).calls = (Skip s).calls) := by
  have key : newCalls (fresh playlist w log) (castVotes (fresh playlist w log) vs) =
      (if Vote.Skip ∈ vs then [Call.NewTimer (Second * 10)] else []) := by
    unfold newCalls
    rw [castVotes_calls _ _ rfl]
    simp [fresh]
  refine ⟨?_, key, fun s => ⟨rfl, rfl⟩, ?_⟩
  · rw [key]
    by_cases h : Vote.Skip ∈ vs <;> simp [h, Call.isNewTimer]
  · intro s
    cases h : s.client.skipVoted <;> simp [Skip, h]

/-- C7: in every client state `TimerExpired` returns the error "Not enough
skip votes!" and calls nothing when `skipVotes <= keepVotes`; when
`skipVotes > keepVotes` it makes one call, `Next`, and returns what that
call returned, nil or the collaborator's error as it is. -/
theorem TimerExpired_result (api : Client W) (s : System W) :
    (s.client.skipVotes ≤ s.client.keepVotes →
      TimerExpired api s = (some (Error.errorf "Not enough skip votes!"), s)) ∧
    (s.client.skipVotes > s.client.keepVotes →
      (TimerExpired api s).1 = (api.Next s.world).2 ∧
      (TimerExpired api s).2.world = (api.Next s.world).1 ∧
      (TimerExpired api s).2.calls = s.calls ++ [Call.Next] ∧
      (TimerExpired api s).2.client = s.client) := by
  constructor
  · intro h
    have h1 : ¬ s.client.skipVotes > s.client.keepVotes := not_lt.mpr h
    simp [TimerExpired, h1]
  · intro h
    simp [TimerExpired, h]

/-- Witness of C7: two keep votes against one skip vote are refused without
a call; two skip votes against one keep vote call `Next` once, and a
failure of `Next` is returned as it is. -/
theorem TimerExpired_result_witness :
    TimerExpired (remote onePage (.ok ⟨none⟩) none)
        ⟨⟨⟨"pl", ⟨"", []⟩⟩, true, 1, 2, some ⟨Second * 10⟩⟩, 0, []⟩ =
      (some (Error.errorf "Not enough skip votes!"),
        ⟨⟨⟨"pl", ⟨"", []⟩⟩, true, 1, 2, some ⟨Second * 10⟩⟩, 0, []⟩) ∧
    (TimerExpired (remote onePage (.ok ⟨none⟩) (some (Error.errorf "no device")))
        ⟨⟨⟨"pl", ⟨"", []⟩⟩, true, 2, 1, some ⟨Second * 10⟩⟩, 0, []⟩).1 =
      some (Error.errorf "no device") ∧
    (TimerExpired (remote onePage (.ok ⟨none⟩) (some (Error.errorf "no device")))
        ⟨⟨⟨"pl", ⟨"", []⟩⟩, true, 2, 1, some ⟨Second * 10⟩⟩, 0, []⟩).2.calls = [Call.Next] :=
  ⟨(TimerExpired_result (remote onePage (.ok ⟨none⟩) none)
      ⟨⟨⟨"pl", ⟨"", []⟩⟩, true, 1, 2, some ⟨Second * 10⟩⟩, 0, []⟩).1 (by decide),
   ((TimerExpired_result (remote onePage (.ok ⟨none⟩) (some (Error.errorf "no device")))
      ⟨⟨⟨"pl", ⟨"", []⟩⟩, true, 2, 1, some ⟨Second * 10⟩⟩, 0, []⟩).2 (by decide)).1,
   ((TimerExpired_result (remote onePage (.ok ⟨none⟩) (some (Error.errorf "no device")))
      ⟨⟨⟨"pl", ⟨"", []⟩⟩, true, 2, 1, some ⟨Second * 10⟩⟩, 0, []⟩).2 (by decide)).2.2.1⟩

/-! ## After the window resolves -/

/-- C10 fails as stated: after one `Skip` on a freshly constructed client,
`TimerExpired` calls `Next` and returns with `skipVotes = 1` and
`skipVoted = true`; the `Skip` that follows creates no timer, and one
`DontSkip` later the earlier vote still counts, two skip votes against
one. -/
theorem TimerExpired_keeps_votes :
    ¬ ((TimerExpired (remote onePage (.ok ⟨none⟩) none)
          (Skip (fresh ⟨"pl", ⟨"", []⟩⟩ 0 []))).2.client.skipVotes = 0 ∧
       (TimerExpired (remote onePage (.ok ⟨none⟩) none)
          (Skip (fresh ⟨"pl", ⟨"", []⟩⟩ 0 []))).2.client.keepVotes = 0 ∧
       (TimerExpired (remote onePage (.ok ⟨none⟩) none)
          (Skip (fresh ⟨"pl", ⟨"", []⟩⟩ 0 []))).2.client.skipVoted = false) ∧
    (TimerExpired (remote onePage (.ok ⟨none⟩) none)
      (Skip (fresh ⟨"pl", ⟨"", []⟩⟩ 0 []))).2.client.skipVotes = 1 ∧
    (TimerExpired (remote onePage (.ok ⟨none⟩) none)
      (Skip (fresh ⟨"pl", ⟨"", []⟩⟩ 0 []))).2.client.skipVoted = true ∧
    (Skip (TimerExpired (remote onePage (.ok ⟨none⟩) none)
      (Skip (fresh ⟨"pl", ⟨"", []⟩⟩ 0 []))).2).calls =
      [Call.NewTimer (Second * 10), Call.Next] ∧
    (resolve (remote onePage (.ok ⟨none⟩) none)
      (TimerExpired (remote onePage (.ok ⟨none⟩) none) (Skip (fresh ⟨"pl", ⟨"", []⟩⟩ 0 []))).2
      [Vote.Skip, Vote.DontSkip]).2.calls =
      [Call.NewTimer (Second * 10), Call.Next, Call.Next] := by
  decide

/-- C10, amended: `TimerExpired` changes no field of the client, whether it
skipped or reported insufficient votes: `skipVotes`, `keepVotes`,
`skipVoted` and the timer are what they were.  So a `Skip` that follows the
resolution of a window opened by a `Skip` creates no timer, and votes cast
after a resolution leave the client exactly as they would have without it:
the votes cast before it are still counted. -/
theorem TimerExpired_frame (api : Client W) (s : System W) :
    (TimerExpired api s).2.client = s.client ∧
    (Skip (TimerExpired api (Skip s)).2).calls = (TimerExpired api (Skip s)).2.calls ∧
    ∀ vs : List Vote,
      (castVotes (TimerExpired api s).2 vs).client = (castVotes s vs).client := by
  refine ⟨TimerExpired_client api s, ?_, ?_⟩
  · have h : (TimerExpired api (Skip s)).2.client.skipVoted = true := by
      rw [TimerExpired_client]
      cases h : s.client.skipVoted <;> simp [Skip, h]
    exact Skip_calls_voted _ h
  · intro vs
    exact castVotes_client _ _ vs (TimerExpired_client api s)

/-! ## The membership check -/

theorem isTrackInPage_loop_iff (trackID : ID) (ts : List PlaylistTrack) :
    isTrackInPage.loop trackID ts = true ↔ ∃ t ∈ ts, t.Track.ID = trackID := by
  induction ts with
  | nil => simp [isTrackInPage.loop]
  | cons t ts ih =>
    by_cases h : t.Track.ID = trackID
    · simp [isTrackInPage.loop, h]
    · simp [isTrackInPage.loop, h, ih]

theorem isTrackInPage_iff (trackID : ID) (page : PlaylistTrackPage) :
    isTrackInPage trackID page = true ↔ ∃ t ∈ page.Tracks, t.Track.ID = trackID :=
  isTrackInPage_loop_iff trackID page.Tracks

theorem isTrackInPlaylist_found (api : Client W) (trackID : ID) (fuel : Nat) (s : System W)
    (h : isTrackInPage trackID s.client.Playlist.Tracks = true) :
    isTrackInPlaylist api trackID (fuel + 1) s = some (Outcome.returned true, s) := by
  simp [isTrackInPlaylist, h]

theorem isTrackInPlaylist_failed (api : Client W) (trackID : ID) (fuel : Nat) (s : System W)
    (w : W) (err : Error)
    (h : isTrackInPage trackID s.client.Playlist.Tracks = false)
    (hnp : api.NextPage s.world s.client.Playlist.Tracks = (w, PageAnswer.failed err)) :
    isTrackInPlaylist api trackID (fuel + 1) s = some (Outcome.returned false, paged s w) := by
  simp [isTrackInPlaylist, h, hnp]

theorem isTrackInPlaylist_panicked (api : Client W) (trackID : ID) (fuel : Nat) (s : System W)
    (w : W)
    (h : isTrackInPage trackID s.client.Playlist.Tracks = false)
    (hnp : api.NextPage s.world s.client.Playlist.Tracks = (w, PageAnswer.panicked)) :
    isTrackInPlaylist api trackID (fuel + 1) s = some (Outcome.panicked, paged s w) := by
  simp [isTrackInPlaylist, h, hnp]

theorem isTrackInPlaylist_fetched (api : Client W) (trackID : ID) (fuel : Nat) (s : System W)
    (w : W) (page : PlaylistTrackPage)
    (h : isTrackInPage trackID s.client.Playlist.Tracks = false)
    (hnp : api.NextPage s.world s.client.Playlist.Tracks = (w, PageAnswer.fetched page)) :
    isTrackInPlaylist api trackID (fuel + 1) s = isTrackInPlaylist api trackID fuel (paged s w) := by
  simp [isTrackInPlaylist, h, hnp]

theorem newCalls_of_append (s s1 : System W) (cs : List Call) (h : s1.calls = s.calls ++ cs) :
    newCalls s s1 = cs := by
  simp [newCalls, h]

/-- What a finished scan leaves behind, however it ended: the client as it
was, and a log that grew by `NextPage` requests only, every one of them for
the page held by the client.  It returned `true` only for a track on that
page, and then without a request. -/
theorem isTrackInPlaylist_frame (api : Client W) (trackID : ID) (fuel : Nat) (s : System W)
    (out : Outcome Bool) (s1 : System W)
    (h : isTrackInPlaylist api trackID fuel s = some (out, s1)) :
    s1.client = s.client ∧
    ∃ k, s1.calls = s.calls ++ List.replicate k (Call.NextPage s.client.Playlist.Tracks) ∧
      (out = Outcome.returned true →
        isTrackInPage trackID s.client.Playlist.Tracks = true ∧ k = 0) := by
  induction fuel generalizing s with
  | zero => simp [isTrackInPlaylist] at h
  | succ f ih =>
    by_cases hin : isTrackInPage trackID s.client.Playlist.Tracks = true
    · rw [isTrackInPlaylist_found api trackID f s hin] at h
      simp only [Option.some.injEq, Prod.mk.injEq] at h
      obtain ⟨_, rfl⟩ := h
      exact ⟨rfl, 0, by simp, fun _ => ⟨hin, rfl⟩⟩
    · have hin1 : isTrackInPage trackID s.client.Playlist.Tracks = false := by simpa using hin
      rcases hnp : api.NextPage s.world s.client.Playlist.Tracks with ⟨w1, (p1 | err | _)⟩
      · rw [isTrackInPlaylist_fetched api trackID f s w1 p1 hin1 hnp] at h
        obtain ⟨hclient, k, hcalls, htrue⟩ := ih (paged s w1) h
        refine ⟨hclient, k + 1, ?_, ?_⟩
        · rw [hcalls]; simp [paged, List.replicate_succ]
        · intro hout
          exact absurd (htrue hout).1 hin
      · rw [isTrackInPlaylist_failed api trackID f s w1 err hin1 hnp] at h
        simp only [Option.some.injEq, Prod.mk.injEq] at h
        obtain ⟨rfl, rfl⟩ := h
        exact ⟨rfl, 1, by simp [paged], fun hout => by simp at hout⟩
      · rw [isTrackInPlaylist_panicked api trackID f s w1 hin1 hnp] at h
        simp only [Option.some.injEq, Prod.mk.injEq] at h
        obtain ⟨rfl, rfl⟩ := h
        exact ⟨rfl, 1, by simp [paged], fun hout => by simp at hout⟩

/-- The scan of a track that the page held by the client lacks, when
`NextPage` fetches `n` times and then fails: it returns `false` after these
`n + 1` requests, all made for the page held by the client. -/
theorem isTrackInPlaylist_missed (api : Client W) (trackID : ID) (n fuel : Nat) (s : System W)
    (w w1 : W) (err : Error)
    (hasked : asked api s.client.Playlist.Tracks n s.world = some w)
    (herr : api.NextPage w s.client.Playlist.Tracks = (w1, PageAnswer.failed err))
    (hin : isTrackInPage trackID s.client.Playlist.Tracks = false) (hfuel : n < fuel) :
    isTrackInPlaylist api trackID fuel s =
      some (Outcome.returned false,
        { client := s.client, world := w1,
          calls := s.calls ++
            List.replicate (n + 1) (Call.NextPage s.client.Playlist.Tracks) }) := by
  induction n generalizing s fuel with
  | zero =>
    obtain ⟨f, rfl⟩ : ∃ f, fuel = f + 1 := ⟨fuel - 1, by omega⟩
    simp only [asked, Option.some.injEq] at hasked
    subst hasked
    rw [isTrackInPlaylist_failed api trackID f s w1 err hin herr]
    simp [paged]
  | succ n ih =>
    obtain ⟨f, rfl⟩ : ∃ f, fuel = f + 1 := ⟨fuel - 1, by omega⟩
    rcases hnp : api.NextPage s.world s.client.Playlist.Tracks with ⟨w2, (p1 | e | _)⟩
    · simp only [asked, hnp] at hasked
      rw [isTrackInPlaylist_fetched api trackID f s w2 p1 hin hnp,
        ih f (paged s w2) hasked herr hin (by omega)]
      simp [paged, List.replicate_succ]
    · simp [asked, hnp] at hasked
    · simp [asked, hnp] at hasked

/-- C3, as the code has it: when `NextPage` fetches `n` times and then
fails with an error `err`, of either kind, `isTrackInPlaylist` returns,
given fuel for `n + 1` rounds, and it returns `true` exactly when the track
ID is the ID of an entry of the cached page.  The pages that `NextPage`
fetched are never scanned: a track that is on one of them only is reported
absent.  The client is left as it was. -/
theorem isTrackInPlaylist_cached_page_only (api : Client W) (trackID : ID) (n fuel : Nat)
    (s : System W) (w w1 : W) (err : Error)
    (hasked : asked api s.client.Playlist.Tracks n s.world = some w)
    (herr : api.NextPage w s.client.Playlist.Tracks = (w1, PageAnswer.failed err))
    (hfuel : n < fuel) :
    ∃ b s1, isTrackInPlaylist api trackID fuel s = some (Outcome.returned b, s1) ∧
      (b = true ↔ ∃ t ∈ s.client.Playlist.Tracks.Tracks, t.Track.ID = trackID) ∧
      s1.client = s.client := by
  obtain ⟨f, rfl⟩ : ∃ f, fuel = f + 1 := ⟨fuel - 1, by omega⟩
  by_cases hin : isTrackInPage trackID s.client.Playlist.Tracks = true
  · refine ⟨true, s, isTrackInPlaylist_found api trackID f s hin, ?_, rfl⟩
    simp only [true_iff]
    exact (isTrackInPage_iff _ _).mp hin
  · have hin1 : isTrackInPage trackID s.client.Playlist.Tracks = false := by simpa using hin
    refine ⟨false, _, isTrackInPlaylist_missed api trackID n (f + 1) s w w1 err hasked herr hin1
      hfuel, ?_, rfl⟩
    simp only [Bool.false_eq_true, false_iff]
    exact fun h => hin ((isTrackInPage_iff _ _).mpr h)

/-- Witness of C3: the cached page holds "a"; the first `NextPage` call
succeeds and fetches the page that holds "b", the second reports "no more
pages".  The check for "b" returns `false`.  With a `NextPage` that panics
on the page passed by value, the check for "b" does not return. -/
theorem isTrackInPlaylist_cached_page_only_witness :
    (remote (twoPages ⟨"", [⟨⟨"b"⟩⟩]⟩) (.ok ⟨none⟩) none).NextPage 0 ⟨"c2", [⟨⟨"a"⟩⟩]⟩ =
      (1, PageAnswer.fetched ⟨"", [⟨⟨"b"⟩⟩]⟩) ∧
    (remote (twoPages ⟨"", [⟨⟨"b"⟩⟩]⟩) (.ok ⟨none⟩) none).NextPage 1 ⟨"c2", [⟨⟨"a"⟩⟩]⟩ =
      (2, PageAnswer.failed Error.ErrNoMorePages) ∧
    isTrackInPlaylist (remote (twoPages ⟨"", [⟨⟨"b"⟩⟩]⟩) (.ok ⟨none⟩) none) "b" 2
        (fresh ⟨"pl", ⟨"c2", [⟨⟨"a"⟩⟩]⟩⟩ 0 []) =
      some (Outcome.returned false,
        ⟨⟨⟨"pl", ⟨"c2", [⟨⟨"a"⟩⟩]⟩⟩, false, 0, 0, none⟩, 2,
          [Call.NextPage ⟨"c2", [⟨⟨"a"⟩⟩]⟩, Call.NextPage ⟨"c2", [⟨⟨"a"⟩⟩]⟩]⟩) ∧
    isTrackInPlaylist (remote panics (.ok ⟨none⟩) none) "b" 2
        (fresh ⟨"pl", ⟨"c2", [⟨⟨"a"⟩⟩]⟩⟩ 0 []) =
      some (Outcome.panicked,
        ⟨⟨⟨"pl", ⟨"c2", [⟨⟨"a"⟩⟩]⟩⟩, false, 0, 0, none⟩, 1,
          [Call.NextPage ⟨"c2", [⟨⟨"a"⟩⟩]⟩]⟩) ∧
    ∃ b s1, isTrackInPlaylist (remote (twoPages ⟨"", [⟨⟨"b"⟩⟩]⟩) (.ok ⟨none⟩) none) "b" 2
        (fresh ⟨"pl", ⟨"c2", [⟨⟨"a"⟩⟩]⟩⟩ 0 []) = some (Outcome.returned b, s1) ∧
      (b = true ↔ ∃ t ∈ (fresh ⟨"pl", ⟨"c2", [⟨⟨"a"⟩⟩]⟩⟩ (0 : Nat) []).client.Playlist.Tracks.Tracks,
        t.Track.ID = "b") ∧
      s1.client = (fresh ⟨"pl", ⟨"c2", [⟨⟨"a"⟩⟩]⟩⟩ (0 : Nat) []).client :=
  ⟨rfl, rfl, by decide, by decide,
    isTrackInPlaylist_cached_page_only (remote (twoPages ⟨"", [⟨⟨"b"⟩⟩]⟩) (.ok ⟨none⟩) none)
      "b" 1 2 (fresh ⟨"pl", ⟨"c2", [⟨⟨"a"⟩⟩]⟩⟩ 0 []) 1 2 Error.ErrNoMorePages
      (by decide) rfl (by decide)⟩

/-- C8, as the code has it: when `NextPage` fetches `n` times and then
fails, a track on the cached page is found without a request; a track that
the cached page lacks is not found, wherever else it is: the scan makes all
`n + 1` requests, each of them for the cached page, and returns `false`. -/
theorem isTrackInPlaylist_requests (api : Client W) (trackID : ID) (n fuel : Nat)
    (s : System W) (w w1 : W) (err : Error)
    (hasked : asked api s.client.Playlist.Tracks n s.world = some w)
    (herr : api.NextPage w s.client.Playlist.Tracks = (w1, PageAnswer.failed err))
    (hfuel : n < fuel) :
    ((∃ t ∈ s.client.Playlist.Tracks.Tracks, t.Track.ID = trackID) →
      isTrackInPlaylist api trackID fuel s = some (Outcome.returned true, s)) ∧
    ((¬ ∃ t ∈ s.client.Playlist.Tracks.Tracks, t.Track.ID = trackID) →
      ∃ s1, isTrackInPlaylist api trackID fuel s = some (Outcome.returned false, s1) ∧
        newCalls s s1 = List.replicate (n + 1) (Call.NextPage s.client.Playlist.Tracks) ∧
        (newCalls s s1).countP Call.isNextPage = n + 1) := by
  obtain ⟨f, rfl⟩ : ∃ f, fuel = f + 1 := ⟨fuel - 1, by omega⟩
  constructor
  · intro hin
    exact isTrackInPlaylist_found api trackID f s ((isTrackInPage_iff _ _).mpr hin)
  · intro hnot
    have hin1 : isTrackInPage trackID s.client.Playlist.Tracks = false := by
      rw [← isTrackInPage_iff] at hnot
      simpa using hnot
    have hnew : newCalls s
        { client := s.client, world := w1,
          calls := s.calls ++ List.replicate (n + 1) (Call.NextPage s.client.Playlist.Tracks) } =
        List.replicate (n + 1) (Call.NextPage s.client.Playlist.Tracks) :=
      newCalls_of_append s _ _ rfl
    refine ⟨_, isTrackInPlaylist_missed api trackID n (f + 1) s w w1 err hasked herr hin1 hfuel,
      hnew, ?_⟩
    rw [hnew, List.countP_replicate]
    simp [Call.isNextPage]

/-- Witness of C8: "b" appears first on the second page of the playlist, the
page the first `NextPage` call fetches.  The scan does not stop after that
one request with `true`: it makes two requests, both for the cached page,
and returns `false`. -/
theorem isTrackInPlaylist_requests_witness :
    (remote (twoPages ⟨"", [⟨⟨"b"⟩⟩]⟩) (.ok ⟨none⟩) none).NextPage 0 ⟨"c2", [⟨⟨"a"⟩⟩]⟩ =
      (1, PageAnswer.fetched ⟨"", [⟨⟨"b"⟩⟩]⟩) ∧
    ∃ s1, isTrackInPlaylist (remote (twoPages ⟨"", [⟨⟨"b"⟩⟩]⟩) (.ok ⟨none⟩) none) "b" 2
        (fresh ⟨"pl", ⟨"c2", [⟨⟨"a"⟩⟩]⟩⟩ 0 []) = some (Outcome.returned false, s1) ∧
      newCalls (fresh ⟨"pl", ⟨"c2", [⟨⟨"a"⟩⟩]⟩⟩ 0 []) s1 =
        List.replicate (1 + 1) (Call.NextPage
          (fresh ⟨"pl", ⟨"c2", [⟨⟨"a"⟩⟩]⟩⟩ (0 : Nat) []).client.Playlist.Tracks) ∧
      (newCalls (fresh ⟨"pl", ⟨"c2", [⟨⟨"a"⟩⟩]⟩⟩ 0 []) s1).countP Call.isNextPage = 1 + 1 :=
  ⟨rfl,
    (isTrackInPlaylist_requests (remote (twoPages ⟨"", [⟨⟨"b"⟩⟩]⟩) (.ok ⟨none⟩) none)
      "b" 1 2 (fresh ⟨"pl", ⟨"c2", [⟨⟨"a"⟩⟩]⟩⟩ 0 []) 1 2 Error.ErrNoMorePages
      (by decide) rfl (by decide)).2 (by decide)⟩

/-- C9: a call of `isTrackInPlaylist` starts its scan from the cached page,
so that a track on that page is found at once, and a call that returns
leaves the client, the cached page with it, as it found it.  Therefore,
when the answer of `NextPage` depends on the page alone, a second call for
the same track ID returns, and returns what the first call returned. -/
theorem isTrackInPlaylist_idempotent (api : Client W) (trackID : ID) (fuel fuel2 : Nat)
    (s : System W) (b : Bool) (s1 : System W)
    (hpure : ∀ w w1 p, (api.NextPage w p).2 = (api.NextPage w1 p).2)
    (hrun : isTrackInPlaylist api trackID fuel s = some (Outcome.returned b, s1))
    (hfuel2 : 0 < fuel2) :
    ((∃ t ∈ s.client.Playlist.Tracks.Tracks, t.Track.ID = trackID) → b = true ∧ s1 = s) ∧
    s1.client = s.client ∧
    s1.client.Playlist.Tracks = s.client.Playlist.Tracks ∧
    ∃ s2, isTrackInPlaylist api trackID fuel2 s1 = some (Outcome.returned b, s2) ∧
      s2.client = s.client := by
  obtain ⟨f2, rfl⟩ : ∃ f, fuel2 = f + 1 := ⟨fuel2 - 1, by omega⟩
  have hframe := (isTrackInPlaylist_frame api trackID fuel s _ s1 hrun).1
  refine ⟨?_, hframe, by rw [hframe], ?_⟩
  · intro hin
    obtain ⟨f, rfl⟩ : ∃ f, fuel = f + 1 := by
      cases fuel with
      | zero => simp [isTrackInPlaylist] at hrun
      | succ f => exact ⟨f, rfl⟩
    rw [isTrackInPlaylist_found api trackID f s ((isTrackInPage_iff _ _).mpr hin)] at hrun
    simp only [Option.some.injEq, Prod.mk.injEq, Outcome.returned.injEq] at hrun
    exact ⟨hrun.1.symm, hrun.2.symm⟩
  · clear hframe
    induction fuel generalizing s with
    | zero => simp [isTrackInPlaylist] at hrun
    | succ f ih =>
      by_cases hin : isTrackInPage trackID s.client.Playlist.Tracks = true
      · rw [isTrackInPlaylist_found api trackID f s hin] at hrun
        simp only [Option.some.injEq, Prod.mk.injEq, Outcome.returned.injEq] at hrun
        obtain ⟨rfl, rfl⟩ := hrun
        exact ⟨s, isTrackInPlaylist_found api trackID f2 s hin, rfl⟩
      · have hin1 : isTrackInPage trackID s.client.Playlist.Tracks = false := by
          simpa using hin
        rcases hnp : api.NextPage s.world s.client.Playlist.Tracks with ⟨w1, (p1 | err | _)⟩
        · rw [isTrackInPlaylist_fetched api trackID f s w1 p1 hin1 hnp] at hrun
          exact ih (paged s w1) hrun
        · rw [isTrackInPlaylist_failed api trackID f s w1 err hin1 hnp] at hrun
          simp only [Option.some.injEq, Prod.mk.injEq, Outcome.returned.injEq] at hrun
          obtain ⟨rfl, rfl⟩ := hrun
          have hsame := hpure w1 s.world s.client.Playlist.Tracks
          rw [hnp] at hsame
          rcases hnp2 : api.NextPage w1 s.client.Playlist.Tracks with ⟨w2, r⟩
          rw [hnp2] at hsame
          simp only at hsame
          subst hsame
          exact ⟨_, isTrackInPlaylist_failed api trackID f2 (paged s w1) w2 err hin1 hnp2, rfl⟩
        · rw [isTrackInPlaylist_panicked api trackID f s w1 hin1 hnp] at hrun
          simp at hrun

/-- Witness of C9: on a playlist whose one page holds "a", the check for "z"
returns `false`, and made again on the system it left, `false` again, the
cached page being the same. -/
theorem isTrackInPlaylist_idempotent_witness :
    isTrackInPlaylist (remote (byCursor ⟨"", [⟨⟨"b"⟩⟩]⟩) (.ok ⟨none⟩) none) "z" 1
        (fresh ⟨"pl", ⟨"", [⟨⟨"a"⟩⟩]⟩⟩ 0 []) =
      some (Outcome.returned false,
        ⟨⟨⟨"pl", ⟨"", [⟨⟨"a"⟩⟩]⟩⟩, false, 0, 0, none⟩, 1, [Call.NextPage ⟨"", [⟨⟨"a"⟩⟩]⟩]⟩) ∧
    (⟨⟨"pl", ⟨"", [⟨⟨"a"⟩⟩]⟩⟩, false, 0, 0, none⟩ : SpotifyClient).Playlist.Tracks =
      (fresh ⟨"pl", ⟨"", [⟨⟨"a"⟩⟩]⟩⟩ (0 : Nat) []).client.Playlist.Tracks ∧
    ∃ s2, isTrackInPlaylist (remote (byCursor ⟨"", [⟨⟨"b"⟩⟩]⟩) (.ok ⟨none⟩) none) "z" 1
        ⟨⟨⟨"pl", ⟨"", [⟨⟨"a"⟩⟩]⟩⟩, false, 0, 0, none⟩, 1, [Call.NextPage ⟨"", [⟨⟨"a"⟩⟩]⟩]⟩ =
        some (Outcome.returned false, s2) ∧
      s2.client = (fresh ⟨"pl", ⟨"", [⟨⟨"a"⟩⟩]⟩⟩ (0 : Nat) []).client :=
  ⟨by decide,
   (isTrackInPlaylist_idempotent (remote (byCursor ⟨"", [⟨⟨"b"⟩⟩]⟩) (.ok ⟨none⟩) none) "z" 1 1
      (fresh ⟨"pl", ⟨"", [⟨⟨"a"⟩⟩]⟩⟩ 0 []) false
      ⟨⟨⟨"pl", ⟨"", [⟨⟨"a"⟩⟩]⟩⟩, false, 0, 0, none⟩, 1, [Call.NextPage ⟨"", [⟨⟨"a"⟩⟩]⟩]⟩
      (fun _ _ _ => rfl) (by decide) (by decide)).2.2.1,
   (isTrackInPlaylist_idempotent (remote (byCursor ⟨"", [⟨⟨"b"⟩⟩]⟩) (.ok ⟨none⟩) none) "z" 1 1
      (fresh ⟨"pl", ⟨"", [⟨⟨"a"⟩⟩]⟩⟩ 0 []) false
      ⟨⟨⟨"pl", ⟨"", [⟨⟨"a"⟩⟩]⟩⟩, false, 0, 0, none⟩, 1, [Call.NextPage ⟨"", [⟨⟨"a"⟩⟩]⟩]⟩
      (fun _ _ _ => rfl) (by decide) (by decide)).2.2.2⟩

/-! ## Adding a track -/

theorem AddToPlaylist_one (api : Client W) (fuel : Nat) (title artist : String) (s : System W)
    (w1 : W) (results : SearchResult) (tracks : FullTrackPage) (t : FullTrack)
    (hsearch : api.Search s.world (api.QueryEscape (title ++ " - " ++ artist))
      SearchType.SearchTypeTrack = (w1, .ok results))
    (hres : results.Tracks = some tracks) (hone : tracks.Tracks = [t]) :
    AddToPlaylist api fuel title artist s =
      match isTrackInPlaylist api t.ID fuel
        (searched s w1 (api.QueryEscape (title ++ " - " ++ artist))) with
      | none => none
      | some (Outcome.panicked, s2) => some (Outcome.panicked, s2)
      | some (Outcome.returned true, s2) =>
        some (Outcome.returned (some (Error.errorf "Track already in playlist")), s2)
      | some (Outcome.returned false, s2) =>
        match api.AddTracksToPlaylist s2.world s2.client.Playlist.ID [] with
        | (w3, .error err) => some (Outcome.returned (some err), added s2 w3)
        | (w3, .ok _) => some (Outcome.returned none, added s2 w3) := by
  obtain ⟨ts⟩ := tracks
  simp only at hone
  subst hone
  simp only [AddToPlaylist, hsearch, hres]
  rfl

theorem AddToPlaylist_other (api : Client W) (fuel : Nat) (title artist : String)
    (s : System W) (w1 : W) (results : SearchResult)
    (hsearch : api.Search s.world (api.QueryEscape (title ++ " - " ++ artist))
      SearchType.SearchTypeTrack = (w1, .ok results))
    (hnot : ∀ tracks, results.Tracks = some tracks → tracks.Tracks.length ≠ 1) :
    AddToPlaylist api fuel title artist s =
      some (Outcome.returned none,
        searched s w1 (api.QueryEscape (title ++ " - " ++ artist))) := by
  cases hres : results.Tracks with
  | none => simp [AddToPlaylist, hsearch, hres]
  | some tracks =>
    have := hnot tracks hres
    simp [AddToPlaylist, hsearch, hres, this]

theorem AddToPlaylist_search_error (api : Client W) (fuel : Nat) (title artist : String)
    (s : System W) (w1 : W) (err : Error)
    (hsearch : api.Search s.world (api.QueryEscape (title ++ " - " ++ artist))
      SearchType.SearchTypeTrack = (w1, .error err)) :
    AddToPlaylist api fuel title artist s =
      some (Outcome.returned (some err),
        searched s w1 (api.QueryEscape (title ++ " - " ++ artist))) := by
  simp [AddToPlaylist, hsearch]

/-- The log of a finished `AddToPlaylist`, however it ended: the `Search`,
then `NextPage` requests for the cached page, then nothing or one
`AddTracksToPlaylist` on the client's playlist ID with no track ID. -/
theorem AddToPlaylist_log (api : Client W) (fuel : Nat) (title artist : String)
    (s : System W) (out : Outcome (Option Error)) (s1 : System W)
    (hrun : AddToPlaylist api fuel title artist s = some (out, s1)) :
    ∃ (k : Nat) (rest : List Call),
      (rest = [] ∨ rest = [Call.AddTracksToPlaylist s.client.Playlist.ID []]) ∧
      newCalls s s1 =
        Call.Search (api.QueryEscape (title ++ " - " ++ artist)) SearchType.SearchTypeTrack ::
          (List.replicate k (Call.NextPage s.client.Playlist.Tracks) ++ rest) := by
  rcases hsearch : api.Search s.world (api.QueryEscape (title ++ " - " ++ artist))
    SearchType.SearchTypeTrack with ⟨w1, (err | results)⟩
  · rw [AddToPlaylist_search_error api fuel title artist s w1 err hsearch] at hrun
    simp only [Option.some.injEq, Prod.mk.injEq] at hrun
    obtain ⟨_, rfl⟩ := hrun
    exact ⟨0, [], Or.inl rfl, newCalls_of_append s _ _ (by simp [searched])⟩
  · by_cases hone : ∃ tracks t, results.Tracks = some tracks ∧ tracks.Tracks = [t]
    · obtain ⟨tracks, t, hres, ht⟩ := hone
      rw [AddToPlaylist_one api fuel title artist s w1 results tracks t hsearch hres ht] at hrun
      rcases hscan : isTrackInPlaylist api t.ID fuel
        (searched s w1 (api.QueryEscape (title ++ " - " ++ artist))) with _ | ⟨o, s2⟩
      · rw [hscan] at hrun; simp at hrun
      · obtain ⟨hclient, k, hcalls, _⟩ := isTrackInPlaylist_frame api t.ID fuel _ o s2 hscan
        have hcalls2 : s2.calls = s.calls ++
            (Call.Search (api.QueryEscape (title ++ " - " ++ artist))
              SearchType.SearchTypeTrack ::
              (List.replicate k (Call.NextPage s.client.Playlist.Tracks) ++ [])) := by
          rw [hcalls]; simp [searched]
        have hid : s2.client.Playlist.ID = s.client.Playlist.ID := by rw [hclient]; rfl
        rw [hscan] at hrun
        rcases o with (_ | _) | _
        · rcases hadd : api.AddTracksToPlaylist s2.world s2.client.Playlist.ID []
            with ⟨w3, (e | snap)⟩
          all_goals
            simp only [hadd, Option.some.injEq, Prod.mk.injEq] at hrun
            obtain ⟨_, rfl⟩ := hrun
            refine ⟨k, [Call.AddTracksToPlaylist s.client.Playlist.ID []], Or.inr rfl, ?_⟩
            apply newCalls_of_append
            simp [added, hcalls, searched, hid]
        · simp only [Option.some.injEq, Prod.mk.injEq] at hrun
          obtain ⟨_, rfl⟩ := hrun
          exact ⟨k, [], Or.inl rfl, newCalls_of_append s _ _ hcalls2⟩
        · simp only [Option.some.injEq, Prod.mk.injEq] at hrun
          obtain ⟨_, rfl⟩ := hrun
          exact ⟨k, [], Or.inl rfl, newCalls_of_append s _ _ hcalls2⟩
    · have hnot : ∀ tracks, results.Tracks = some tracks → tracks.Tracks.length ≠ 1 := by
        intro tracks hres hlen
        obtain ⟨t, ht⟩ := List.length_eq_one.mp hlen
        exact hone ⟨tracks, t, hres, ht⟩
      rw [AddToPlaylist_other api fuel title artist s w1 results hsearch hnot] at hrun
      simp only [Option.some.injEq, Prod.mk.injEq] at hrun
      obtain ⟨_, rfl⟩ := hrun
      exact ⟨0, [], Or.inl rfl, newCalls_of_append s _ _ (by simp [searched])⟩

/-- C5: when the search succeeds with no track result set or with a number
of candidates other than one, `AddToPlaylist` returns nil after its one
`Search` call: it makes no `AddTracksToPlaylist` call and no `NextPage`
call, and the client is as it was.  No membership check runs, so this holds
with any fuel. -/
theorem AddToPlaylist_not_one (api : Client W) (fuel : Nat) (title artist : String)
    (s : System W) (w1 : W) (results : SearchResult)
    (hsearch : api.Search s.world (api.QueryEscape (title ++ " - " ++ artist))
      SearchType.SearchTypeTrack = (w1, .ok results))
    (hnot : ∀ tracks, results.Tracks = some tracks → tracks.Tracks.length ≠ 1) :
    ∃ s1, AddToPlaylist api fuel title artist s = some (Outcome.returned none, s1) ∧
      s1.client = s.client ∧
      newCalls s s1 =
        [Call.Search (api.QueryEscape (title ++ " - " ++ artist)) SearchType.SearchTypeTrack] ∧
      (newCalls s s1).countP Call.isAddTracks = 0 ∧
      (newCalls s s1).countP Call.isNextPage = 0 := by
  have hnew : newCalls s (searched s w1 (api.QueryEscape (title ++ " - " ++ artist))) =
      [Call.Search (api.QueryEscape (title ++ " - " ++ artist)) SearchType.SearchTypeTrack] :=
    newCalls_of_append s _ _ rfl
  refine ⟨searched s w1 (api.QueryEscape (title ++ " - " ++ artist)), ?_, rfl, hnew, ?_, ?_⟩
  · cases hres : results.Tracks with
    | none => simp [AddToPlaylist, hsearch, hres, searched]
    | some tracks =>
      have := hnot tracks hres
      simp [AddToPlaylist, hsearch, hres, this, searched]
  · rw [hnew]; simp [Call.isAddTracks]
  · rw [hnew]; simp [Call.isNextPage]

/-- Witness of C5: the search finds two candidates. -/
theorem AddToPlaylist_not_one_witness :
    ∃ s1, AddToPlaylist (remote onePage (.ok ⟨some ⟨[⟨"a"⟩, ⟨"b"⟩]⟩⟩) none) 0
        "Song" "Band" (fresh ⟨"pl", ⟨"", [⟨⟨"a"⟩⟩]⟩⟩ 0 []) = some (Outcome.returned none, s1) ∧
      s1.client = (fresh ⟨"pl", ⟨"", [⟨⟨"a"⟩⟩]⟩⟩ 0 []).client ∧
      newCalls (fresh ⟨"pl", ⟨"", [⟨⟨"a"⟩⟩]⟩⟩ 0 []) s1 =
        [Call.Search ((remote onePage (.ok ⟨some ⟨[⟨"a"⟩, ⟨"b"⟩]⟩⟩) none).QueryEscape
          ("Song" ++ " - " ++ "Band")) SearchType.SearchTypeTrack] ∧
      (newCalls (fresh ⟨"pl", ⟨"", [⟨⟨"a"⟩⟩]⟩⟩ 0 []) s1).countP Call.isAddTracks = 0 ∧
      (newCalls (fresh ⟨"pl", ⟨"", [⟨⟨"a"⟩⟩]⟩⟩ 0 []) s1).countP Call.isNextPage = 0 :=
  AddToPlaylist_not_one (remote onePage (.ok ⟨some ⟨[⟨"a"⟩, ⟨"b"⟩]⟩⟩) none) 0 "Song" "Band"
    (fresh ⟨"pl", ⟨"", [⟨⟨"a"⟩⟩]⟩⟩ 0 []) 0 ⟨some ⟨[⟨"a"⟩, ⟨"b"⟩]⟩⟩ rfl
    (by
      intro tracks h
      simp only [Option.some.injEq] at h
      subst h
      decide)

theorem filter_isAddTracks_log (q : String) (k : Nat) (p : PlaylistTrackPage)
    (rest : List Call) :
    (Call.Search q SearchType.SearchTypeTrack ::
      (List.replicate k (Call.NextPage p) ++ rest)).filter Call.isAddTracks =
      rest.filter Call.isAddTracks := by
  have h : (List.replicate k (Call.NextPage p)).filter Call.isAddTracks = [] := by
    rw [List.filter_eq_nil_iff]
    intro c hc
    rw [List.eq_of_mem_replicate hc]
    simp [Call.isAddTracks]
  rw [List.filter_cons, List.filter_append, h]
  simp [Call.isAddTracks]

/-- C2, as the code has it: in a finished `AddToPlaylist`, however it ended,
every `AddTracksToPlaylist` call is on the client's playlist ID and passes
no track ID, and there is at most one: the ID of the track that was found
is never passed. -/
theorem AddToPlaylist_never_passes_track_id (api : Client W) (fuel : Nat)
    (title artist : String) (s : System W) (out : Outcome (Option Error)) (s1 : System W)
    (hrun : AddToPlaylist api fuel title artist s = some (out, s1)) :
    (∀ playlistID trackIDs, Call.AddTracksToPlaylist playlistID trackIDs ∈ newCalls s s1 →
      playlistID = s.client.Playlist.ID ∧ trackIDs = []) ∧
    (newCalls s s1).countP Call.isAddTracks ≤ 1 := by
  obtain ⟨k, rest, hrest, hnew⟩ := AddToPlaylist_log api fuel title artist s out s1 hrun
  have hfilter : (newCalls s s1).filter Call.isAddTracks = rest.filter Call.isAddTracks := by
    rw [hnew, filter_isAddTracks_log]
  constructor
  · intro playlistID trackIDs hmem
    have hmem1 : Call.AddTracksToPlaylist playlistID trackIDs ∈
        (newCalls s s1).filter Call.isAddTracks := List.mem_filter.mpr ⟨hmem, rfl⟩
    rw [hfilter] at hmem1
    rcases hrest with rfl | rfl
    · simp at hmem1
    · simp only [List.mem_filter, List.mem_singleton, Call.AddTracksToPlaylist.injEq] at hmem1
      exact hmem1.1
  · rw [List.countP_eq_length_filter, hfilter]
    rcases hrest with rfl | rfl <;> simp [Call.isAddTracks]

/-- Witness of C2: the search finds the one track "t1", the playlist "pl"
has a single page holding "a".  When `NextPage` reports "no more pages", the
calls are the search, that request, and `AddTracksToPlaylist` on "pl" with
an empty list of track IDs.  When `NextPage` panics on the page passed by
value, the run ends there and `AddTracksToPlaylist` is not called. -/
theorem AddToPlaylist_never_passes_track_id_witness :
    AddToPlaylist (remote onePage (.ok ⟨some ⟨[⟨"t1"⟩]⟩⟩) none) 1 "Song" "Band"
        (fresh ⟨"pl", ⟨"", [⟨⟨"a"⟩⟩]⟩⟩ 0 []) =
      some (Outcome.returned none, ⟨⟨⟨"pl", ⟨"", [⟨⟨"a"⟩⟩]⟩⟩, false, 0, 0, none⟩, 1,
        [Call.Search "Song+-+Band" SearchType.SearchTypeTrack,
         Call.NextPage ⟨"", [⟨⟨"a"⟩⟩]⟩,
         Call.AddTracksToPlaylist "pl" []]⟩) ∧
    AddToPlaylist (remote panics (.ok ⟨some ⟨[⟨"t1"⟩]⟩⟩) none) 1 "Song" "Band"
        (fresh ⟨"pl", ⟨"", [⟨⟨"a"⟩⟩]⟩⟩ 0 []) =
      some (Outcome.panicked, ⟨⟨⟨"pl", ⟨"", [⟨⟨"a"⟩⟩]⟩⟩, false, 0, 0, none⟩, 1,
        [Call.Search "Song+-+Band" SearchType.SearchTypeTrack,
         Call.NextPage ⟨"", [⟨⟨"a"⟩⟩]⟩]⟩) ∧
    Call.AddTracksToPlaylist "pl" ["t1"] ∉
      newCalls (fresh ⟨"pl", ⟨"", [⟨⟨"a"⟩⟩]⟩⟩ 0 [])
        (⟨⟨⟨"pl", ⟨"", [⟨⟨"a"⟩⟩]⟩⟩, false, 0, 0, none⟩, 1,
          [Call.Search "Song+-+Band" SearchType.SearchTypeTrack,
           Call.NextPage ⟨"", [⟨⟨"a"⟩⟩]⟩,
           Call.AddTracksToPlaylist "pl" []]⟩ : System Nat) :=
  ⟨by decide, by decide,
   fun h => absurd
    ((AddToPlaylist_never_passes_track_id (remote onePage (.ok ⟨some ⟨[⟨"t1"⟩]⟩⟩) none) 1
      "Song" "Band" (fresh ⟨"pl", ⟨"", [⟨⟨"a"⟩⟩]⟩⟩ 0 []) (Outcome.returned none) _
      (by decide)).1 "pl" ["t1"] h).2 (by decide)⟩

/-- C4, as the code has it: with exactly one candidate found, and a
`NextPage` that fetches `n` times and then fails, `AddToPlaylist` returns
the error "Track already in playlist", without an `AddTracksToPlaylist`
call, when the track is on the cached page.  When the cached page lacks the
track, wherever else in the playlist it is, the track is not recognised:
`AddToPlaylist` returns after one `AddTracksToPlaylist` call. -/
theorem AddToPlaylist_duplicate_cached_only (api : Client W) (fuel n : Nat)
    (title artist : String) (s : System W) (w1 w w2 : W) (results : SearchResult)
    (tracks : FullTrackPage) (t : FullTrack) (err : Error)
    (hsearch : api.Search s.world (api.QueryEscape (title ++ " - " ++ artist))
      SearchType.SearchTypeTrack = (w1, .ok results))
    (hres : results.Tracks = some tracks) (hone : tracks.Tracks = [t])
    (hasked : asked api s.client.Playlist.Tracks n w1 = some w)
    (herr : api.NextPage w s.client.Playlist.Tracks = (w2, PageAnswer.failed err))
    (hfuel : n < fuel) :
    ((∃ e ∈ s.client.Playlist.Tracks.Tracks, e.Track.ID = t.ID) →
      ∃ s1, AddToPlaylist api fuel title artist s =
          some (Outcome.returned (some (Error.errorf "Track already in playlist")), s1) ∧
        (newCalls s s1).countP Call.isAddTracks = 0) ∧
    ((¬ ∃ e ∈ s.client.Playlist.Tracks.Tracks, e.Track.ID = t.ID) →
      ∃ r s1, AddToPlaylist api fuel title artist s = some (Outcome.returned r, s1) ∧
        (newCalls s s1).filter Call.isAddTracks =
          [Call.AddTracksToPlaylist s.client.Playlist.ID []]) := by
  obtain ⟨f, rfl⟩ : ∃ f, fuel = f + 1 := ⟨fuel - 1, by omega⟩
  constructor
  · intro hin
    have hscan := isTrackInPlaylist_found api t.ID f
      (searched s w1 (api.QueryEscape (title ++ " - " ++ artist)))
      ((isTrackInPage_iff _ _).mpr hin)
    refine ⟨searched s w1 (api.QueryEscape (title ++ " - " ++ artist)), ?_, ?_⟩
    · rw [AddToPlaylist_one api (f + 1) title artist s w1 results tracks t hsearch hres hone,
        hscan]
    · rw [newCalls_of_append s (searched s w1 (api.QueryEscape (title ++ " - " ++ artist)))
        [Call.Search (api.QueryEscape (title ++ " - " ++ artist)) SearchType.SearchTypeTrack]
        rfl]
      simp [Call.isAddTracks]
  · intro hnot
    have hin1 : isTrackInPage t.ID s.client.Playlist.Tracks = false := by
      rw [← isTrackInPage_iff] at hnot
      simpa using hnot
    have hscan := isTrackInPlaylist_missed api t.ID n (f + 1)
      (searched s w1 (api.QueryEscape (title ++ " - " ++ artist))) w w2 err hasked herr hin1
      hfuel
    have hfilter : ∀ w3, (newCalls s (added
        { client := s.client, world := w2,
          calls := (searched s w1 (api.QueryEscape (title ++ " - " ++ artist))).calls ++
            List.replicate (n + 1) (Call.NextPage s.client.Playlist.Tracks) } w3)).filter
          Call.isAddTracks = [Call.AddTracksToPlaylist s.client.Playlist.ID []] := by
      intro w3
      rw [newCalls_of_append s _
        (Call.Search (api.QueryEscape (title ++ " - " ++ artist)) SearchType.SearchTypeTrack ::
          (List.replicate (n + 1) (Call.NextPage s.client.Playlist.Tracks) ++
            [Call.AddTracksToPlaylist s.client.Playlist.ID []])) (by simp [added, searched]),
        filter_isAddTracks_log]
      simp [Call.isAddTracks]
    rw [AddToPlaylist_one api (f + 1) title artist s w1 results tracks t hsearch hres hone,
      hscan]
    rcases hadd : api.AddTracksToPlaylist w2 s.client.Playlist.ID [] with ⟨w3, (e | snap)⟩
    · exact ⟨some e, _, by simp [hadd, searched], hfilter w3⟩
    · exact ⟨none, _, by simp [hadd, searched], hfilter w3⟩

/-- Witness of C4: the one track found, "b", is on the second page of the
playlist, the page the first `NextPage` call fetches.  `AddToPlaylist` does
not return "Track already in playlist": it returns nil and has called
`AddTracksToPlaylist`. -/
theorem AddToPlaylist_duplicate_cached_only_witness :
    (remote (twoPages ⟨"", [⟨⟨"b"⟩⟩]⟩) (.ok ⟨some ⟨[⟨"b"⟩]⟩⟩) none).NextPage 0
        ⟨"c2", [⟨⟨"a"⟩⟩]⟩ = (1, PageAnswer.fetched ⟨"", [⟨⟨"b"⟩⟩]⟩) ∧
    AddToPlaylist (remote (twoPages ⟨"", [⟨⟨"b"⟩⟩]⟩) (.ok ⟨some ⟨[⟨"b"⟩]⟩⟩) none) 2
        "Song" "Band" (fresh ⟨"pl", ⟨"c2", [⟨⟨"a"⟩⟩]⟩⟩ 0 []) =
      some (Outcome.returned none, ⟨⟨⟨"pl", ⟨"c2", [⟨⟨"a"⟩⟩]⟩⟩, false, 0, 0, none⟩, 2,
        [Call.Search "Song+-+Band" SearchType.SearchTypeTrack,
         Call.NextPage ⟨"c2", [⟨⟨"a"⟩⟩]⟩,
         Call.NextPage ⟨"c2", [⟨⟨"a"⟩⟩]⟩,
         Call.AddTracksToPlaylist "pl" []]⟩) ∧
    ∃ r s1, AddToPlaylist (remote (twoPages ⟨"", [⟨⟨"b"⟩⟩]⟩) (.ok ⟨some ⟨[⟨"b"⟩]⟩⟩) none) 2
        "Song" "Band" (fresh ⟨"pl", ⟨"c2", [⟨⟨"a"⟩⟩]⟩⟩ 0 []) = some (Outcome.returned r, s1) ∧
      (newCalls (fresh ⟨"pl", ⟨"c2", [⟨⟨"a"⟩⟩]⟩⟩ 0 []) s1).filter Call.isAddTracks =
        [Call.AddTracksToPlaylist
          (fresh ⟨"pl", ⟨"c2", [⟨⟨"a"⟩⟩]⟩⟩ (0 : Nat) []).client.Playlist.ID []] :=
  ⟨rfl, by decide,
   (AddToPlaylist_duplicate_cached_only
      (remote (twoPages ⟨"", [⟨⟨"b"⟩⟩]⟩) (.ok ⟨some ⟨[⟨"b"⟩]⟩⟩) none) 2 1 "Song" "Band"
      (fresh ⟨"pl", ⟨"c2", [⟨⟨"a"⟩⟩]⟩⟩ 0 []) 0 1 2 ⟨some ⟨[⟨"b"⟩]⟩⟩ ⟨[⟨"b"⟩]⟩ ⟨"b"⟩
      Error.ErrNoMorePages rfl rfl rfl (by decide) rfl (by decide)).2 (by decide)⟩

end Spotify
